import Mathlib

/-!
Verification of `src/app.py` — an AI slide-deck generator pipeline:
outline generation (`generate_presentation_slide_text`), per-slide image
generation (`generate_presentation_slide_images`), and document assembly
(`create_presentation_file`).

The embedding is shallow: Python dicts parsed from JSON become structures
with `Option` fields (a `none` field models a missing key, whose access
raises `KeyError`); exceptions become `Except String`; the external
generation services become oracles passed as arguments (`TextCall`,
`Nat → ImageCall`: the outcome of each service call); byte strings become
`List Nat`; the assembled pptx document becomes an explicit `Document`
value recording the slides and shapes the code constructs via python-pptx.
-/

namespace App

/-- A slide object of the parsed JSON outline.  Each field is `Option`al
because `json.loads` performs no schema validation: a missing key raises
`KeyError` when first subscripted. -/
structure SlideDict where
  slide_title : Option String
  key_points : Option (List String)
  image_prompt : Option String
deriving Repr, DecidableEq

/-- The parsed JSON outline: a dict with (possibly missing) keys
`title` and `slides`. -/
structure OutlineDict where
  title : Option String
  slides : Option (List SlideDict)
deriving Repr, DecidableEq

/-- Payload of `part.inline_data` on an image-generation response part:
carries the raw image bytes in its `data` field. -/
structure InlineData where
  data : List Nat
deriving Repr, DecidableEq

/-- One content part of an image-generation response; `inline_data` is
`None` for text parts (src/app.py line 75). -/
structure Part where
  inline_data : Option InlineData
deriving Repr, DecidableEq

/-- Outcome of one call to the image-generation service (the body of the
`try` at src/app.py lines 65–72): `failure` models any raised exception
(network/service error, or an error scanning `response.candidates[0]`),
`success parts` models a response whose first candidate carries the given
content parts. -/
inductive ImageCall where
  | failure
  | success (parts : List Part)
deriving Repr, DecidableEq

/-- Image dictionary `images` built by `generate_presentation_slide_images`:
insertion-ordered associations from slide index to optional image bytes
(`none` models Python `None`). -/
abbrev ImageDict : Type := List (Nat × Option (List Nat))

/-- Python `i in images and images[i]` semantics: `none` when the key is
absent, `some v` when present with value `v`. -/
def dictLookup (d : ImageDict) (k : Nat) : Option (Option (List Nat)) :=
  match d with
  | [] => none
  | (k₀, v) :: rest => if k₀ = k then some v else dictLookup rest k

/-- The `for part in ... else` scan at src/app.py lines 74–79: the data of
the first part whose `inline_data` is not `None`; `none` when the loop
finishes without `break`. -/
def scanParts : List Part → Option (List Nat)
  | [] => none
  | p :: rest =>
    match p.inline_data with
    | some d => some d.data
    | none => scanParts rest

/-- Value recorded for one slide: `None` when the service call raised
(caught at lines 80–82), otherwise the result of the part scan. -/
def slideImageResult (c : ImageCall) : Option (List Nat) :=
  match c with
  | .failure => none
  | .success parts => scanParts parts

/-- The `for i, slide in enumerate(outline['slides'])` loop of
`generate_presentation_slide_images` (src/app.py lines 62–82).
`slide['image_prompt']` (line 63) and `slide['slide_title']` (line 64, in
the progress print) are subscripted before the `try`, so a missing key
raises to the caller.  `svc i` is the outcome of the i-th service call. -/
def genImagesLoop (slides : List SlideDict) (svc : Nat → ImageCall)
    (i : Nat) (images : ImageDict) : Except String ImageDict :=
  match slides with
  | [] => .ok images
  | s :: rest =>
    match s.image_prompt with
    | none => .error "KeyError: image_prompt"
    | some _ =>
      match s.slide_title with
      | none => .error "KeyError: slide_title"
      | some _ =>
        genImagesLoop rest svc (i + 1) (images ++ [(i, slideImageResult (svc i))])

/-- Embedding of `generate_presentation_slide_images(outline)` (src/app.py lines 57–84):
iterates `outline['slides']`, building the `images` dict. -/
def generate_presentation_slide_images (outline : OutlineDict)
    (svc : Nat → ImageCall) : Except String ImageDict :=
  match outline.slides with
  | none => .error "KeyError: slides"
  | some slides => genImagesLoop slides svc 0 []

/-- A slide dict carries both keys subscripted outside the `try` block. -/
def SlideDict.wfForImages (s : SlideDict) : Prop :=
  s.image_prompt.isSome ∧ s.slide_title.isSome

instance (s : SlideDict) : Decidable s.wfForImages := by
  unfold SlideDict.wfForImages; infer_instance

/-- The entries the loop appends for `slides`, starting at index `i`. -/
def expectedEntries (slides : List SlideDict) (svc : Nat → ImageCall)
    (i : Nat) : ImageDict :=
  match slides with
  | [] => []
  | _ :: rest => (i, slideImageResult (svc i)) :: expectedEntries rest svc (i + 1)

/- ------------------------------------------------------------------
Outline generation (`generate_presentation_slide_text`, src/app.py 31–55)
------------------------------------------------------------------ -/

/-- The backtick character, written by code point to keep it out of the
source of this file. -/
def backtick : Char := Char.ofNat 96

/-- Python `str.strip(chars)` for a character predicate: removes the
longest run of matching characters from both ends. -/
def pyStrip (p : Char → Bool) (s : List Char) : List Char :=
  ((s.dropWhile p).reverse.dropWhile p).reverse

/-- Python `str.strip(cs)`: strips any character of the set `cs` from both
ends. -/
def stripCharSet (cs : List Char) (s : List Char) : List Char :=
  pyStrip (fun c => cs.contains c) s

/-- Python `str.isspace` members relevant to `str.strip()`: space, tab,
newline, carriage return, vertical tab, form feed. -/
def pyIsSpace (c : Char) : Bool :=
  c = ' ' || c = '\t' || c = '\n' || c = '\r' || c = Char.ofNat 11 || c = Char.ofNat 12

/-- The cleaning step at src/app.py line 51:
`text.strip('`').strip('json').strip()` — strip backticks from both ends,
then strip any of the characters j, s, o, n from both ends, then strip
whitespace. -/
def normalize_json_text (s : List Char) : List Char :=
  pyStrip pyIsSpace (stripCharSet ['j', 's', 'o', 'n'] (stripCharSet [backtick] s))

/-- Outcome of the text-generation call (src/app.py lines 45–51):
`failure` models any exception raised by the service call or while
indexing `candidates[0].content.parts[0]`; `success t` carries the
response text. -/
inductive TextCall where
  | failure
  | success (text : List Char)

/-- Embedding of `generate_presentation_slide_text` (src/app.py lines 31–55): on a
successful call, cleans the text and parses it as JSON; `jsonParse` models
`json.loads`, returning `none` when it raises.  Any exception — service
failure or parse failure — is caught and `None` is returned (lines
53–55). -/
def generate_presentation_slide_text (call : TextCall)
    (jsonParse : List Char → Option OutlineDict) : Option OutlineDict :=
  match call with
  | .failure => none
  | .success t =>
    match jsonParse (normalize_json_text t) with
    | none => none
    | some o => some o

/-- A JSON text wrapped in a triple-backtick fence tagged `json`:
the form the cleaning step targets. -/
def fencedTagged (J : List Char) : List Char :=
  backtick :: backtick :: backtick :: 'j' :: 's' :: 'o' :: 'n' :: '\n' ::
    (J ++ '\n' :: backtick :: backtick :: [backtick])

/-- A JSON text wrapped in an untagged triple-backtick fence. -/
def fencedPlain (J : List Char) : List Char :=
  backtick :: backtick :: backtick :: '\n' ::
    (J ++ '\n' :: backtick :: backtick :: [backtick])

/-- Python truthiness of the parsed outline dict at src/app.py line 159
(`if presentation_outline:`): a dict is falsy iff empty; the model keeps
exactly the keys the program reads. -/
def OutlineDict.truthy (o : OutlineDict) : Bool :=
  o.title.isSome || o.slides.isSome

/- ------------------------------------------------------------------
Document assembly (`create_presentation_file`, src/app.py 86–150)
------------------------------------------------------------------ -/

abbrev RGB := Nat × Nat × Nat

/-- One paragraph of a text frame, recording the properties the code
sets: text, font size (pt), font color, space after (pt), centering. -/
structure DocParagraph where
  text : String
  fontSizePt : Option Nat
  fontColor : Option RGB
  spaceAfterPt : Option Nat
  centered : Bool
deriving Repr, DecidableEq

/-- The single empty paragraph a fresh python-pptx text frame contains
before any `add_paragraph` call. -/
def defaultParagraph : DocParagraph := ⟨"", none, none, none, false⟩

/-- A shape added to a slide.  Positions and sizes are in EMU
(1 inch = 914400). -/
inductive Shape where
  | rect (left top width height : Nat) (fill : RGB)
  | textbox (left top width height : Nat) (wordWrap : Bool)
      (anchorMiddle : Bool) (paragraphs : List DocParagraph)
  | picture (left top width : Nat) (data : List Nat)
deriving Repr, DecidableEq

/-- Value of `Inches(n/10)` in EMU. -/
def emu (tenthsOfInch : Nat) : Nat := tenthsOfInch * 91440

/-- Default python-pptx presentation slide width: 10 inches. -/
def slideWidthEmu : Nat := 9144000

/-- A slide of the assembled document: the title slide records the texts
and styling set at src/app.py lines 90–104; a content slide records its
shapes in insertion order. -/
inductive DocSlide where
  | titleSlide (titleText : String) (titleFontColor : RGB) (titleFill : RGB)
      (subtitleText : String)
  | contentSlide (shapes : List Shape)
deriving Repr, DecidableEq

abbrev Document := List DocSlide

/-- The bullet string prepended to each key point at src/app.py line 139
(the literal bytes of the source file decode to these characters). -/
def bulletGlyph : String := "â€¢ "

/-- One bullet paragraph: `'â€¢ ' + point`, 16pt, dark navy, 10pt space
after (src/app.py lines 137–142). -/
def bulletParagraph (point : String) : DocParagraph :=
  ⟨bulletGlyph ++ point, some 16, some (0, 30, 60), some 10, false⟩

/-- One iteration of the content-slide loop (src/app.py lines 108–147):
header rectangle, header title text box, bullet text box (whose frame
starts with the default empty paragraph), and — when `i in images` and
`images[i] is not None` — a picture.  Subscripting a missing
`slide_title`/`key_points` key raises. -/
def buildContentSlide (i : Nat) (sd : SlideDict) (images : ImageDict) :
    Except String DocSlide :=
  match sd.slide_title with
  | none => .error "KeyError: slide_title"
  | some st =>
    match sd.key_points with
    | none => .error "KeyError: key_points"
    | some pts =>
      let headerRect : Shape := .rect 0 0 slideWidthEmu (emu 10) (0, 51, 102)
      let titleBox : Shape := .textbox 0 0 slideWidthEmu (emu 10) false true
        [⟨st, some 24, some (255, 255, 255), none, true⟩]
      let bodyBox : Shape := .textbox (emu 5) (emu 15) (emu 45) (emu 50) true false
        (defaultParagraph :: pts.map bulletParagraph)
      let pics : List Shape :=
        match dictLookup images i with
        | some (some d) => [.picture (emu 55) (emu 20) (emu 40) d]
        | _ => []
      .ok (.contentSlide ([headerRect, titleBox, bodyBox] ++ pics))

/-- The `for i, slide_data in enumerate(outline['slides'])` loop of
`create_presentation_file`, starting at index `i`. -/
def buildContentSlides (slides : List SlideDict) (images : ImageDict)
    (i : Nat) : Except String (List DocSlide) :=
  match slides with
  | [] => .ok []
  | sd :: rest => do
    let s ← buildContentSlide i sd images
    let more ← buildContentSlides rest images (i + 1)
    return (s :: more)

/-- Embedding of `create_presentation_file(outline, images, ...)` (src/app.py lines
86–150): title slide (white title on dark-blue fill, subtitle
`"AI-Generated Presentation: " + title`), then one content slide per
outline entry.  `.error` models an exception escaping to the caller. -/
def create_presentation_file (outline : OutlineDict) (images : ImageDict) :
    Except String Document :=
  match outline.title with
  | none => .error "KeyError: title"
  | some t =>
    match outline.slides with
    | none => .error "KeyError: slides"
    | some slides => do
      let contents ← buildContentSlides slides images 0
      return (.titleSlide t (255, 255, 255) (0, 51, 102)
        ("AI-Generated Presentation: " ++ t) :: contents)

/-- The shapes of a content slide (a title slide keeps its layout
placeholders, not modelled as shapes here). -/
def contentShapes : DocSlide → List Shape
  | .contentSlide ss => ss
  | .titleSlide .. => []

def Shape.isPicture : Shape → Bool
  | .picture .. => true
  | _ => false

def Shape.paragraphs : Shape → List DocParagraph
  | .textbox _ _ _ _ _ _ ps => ps
  | _ => []

def hasPicture (s : DocSlide) : Bool :=
  (contentShapes s).any Shape.isPicture

def pictureCount (s : DocSlide) : Nat :=
  ((contentShapes s).filter Shape.isPicture).length

def isTitleSlide : DocSlide → Bool
  | .titleSlide .. => true
  | _ => false

def isContentSlide : DocSlide → Bool
  | .contentSlide _ => true
  | _ => false

/- ------------------------------------------------------------------
Main pipeline (src/app.py 153–161)
------------------------------------------------------------------ -/

/-- The `__main__` block (src/app.py lines 153–161): generate the
outline; only when it is truthy, generate images and assemble the file.
The result records, in order: the image stage's outcome (`none` when the
stage never ran), the assembly stage's outcome (`none` when it never
ran), and the file store after the run (`fs` unchanged means nothing was
written). -/
def run_main (call : TextCall) (jsonParse : List Char → Option OutlineDict)
    (svc : Nat → ImageCall) (fs : List (String × Document)) :
    Option (Except String ImageDict) × Option (Except String Document) ×
      List (String × Document) :=
  match generate_presentation_slide_text call jsonParse with
  | none => (none, none, fs)
  | some o =>
    if o.truthy then
      match generate_presentation_slide_images o svc with
      | .error e => (some (.error e), none, fs)
      | .ok images =>
        match create_presentation_file o images with
        | .error e => (some (.ok images), some (.error e), fs)
        | .ok doc => (some (.ok images), some (.ok doc),
            ("AI_Presentation.pptx", doc) :: fs)
    else (none, none, fs)

/-- Mutable state visible to `create_presentation_file`: its two dict
arguments and the file system it saves into (src/app.py line 149). -/
structure PipeState where
  outline : OutlineDict
  images : ImageDict
  fs : List (String × Document)
deriving Repr, DecidableEq

/-- Embedding of `create_presentation_file` as a state transformer: the call reads
`outline` and `images`, and on success appends the saved file; on an
exception the caller's state is as before the call. -/
def create_presentation_file_run (st : PipeState) (path : String) :
    Except String Unit × PipeState :=
  match create_presentation_file st.outline st.images with
  | .error e => (.error e, st)
  | .ok doc => (.ok (), ⟨st.outline, st.images, (path, doc) :: st.fs⟩)

/- ------------------------------------------------------------------
Concrete fixtures used by the scenario claims
------------------------------------------------------------------ -/

/-- Five-slide outline of the C5 scenario. -/
def outline5 : OutlineDict :=
  ⟨some "T", some [⟨some "S1", some ["a1"], some "i1"⟩,
                   ⟨some "S2", some ["a2"], some "i2"⟩,
                   ⟨some "S3", some ["a3"], some "i3"⟩,
                   ⟨some "S4", some ["a4"], some "i4"⟩,
                   ⟨some "S5", some ["a5"], some "i5"⟩]⟩

/-- Image map of the C5 scenario: every index present, index 2 null. -/
def images5 (b0 b1 b3 b4 : List Nat) : ImageDict :=
  [(0, some b0), (1, some b1), (2, none), (3, some b3), (4, some b4)]

/-- The round-trip outline
`{title:"X", slides:[{slide_title:"A", key_points:["p1","p2","p3"], image_prompt:"..."}]}`. -/
def outlineX : OutlineDict :=
  ⟨some "X", some [⟨some "A", some ["p1", "p2", "p3"], some "a beach"⟩]⟩

/-- The PNG signature bytes, standing in for valid PNG data. -/
def pngBytes : List Nat := [137, 80, 78, 71, 13, 10, 26, 10]

/-- Image map of the round-trip scenario: index 0 maps to image bytes. -/
def imagesX (b : List Nat) : ImageDict := [(0, some b)]

/-- Placeholder shape for out-of-range shape accesses in statements. -/
def dummyShape : Shape := .rect 0 0 0 0 (0, 0, 0)

/-- The title text box of a content slide: its second shape
(rectangle, then title box, then bullet box, then optional picture). -/
def titleBoxOf (s : DocSlide) : Shape := (contentShapes s).getD 1 dummyShape

/-- The bullet text box of a content slide: its third shape. -/
def bulletBoxOf (s : DocSlide) : Shape := (contentShapes s).getD 2 dummyShape

/-- The round-trip claim as stated for an assembled document: 2 slides;
the content slide's title text box reads "A"; its bullet text box holds
exactly 3 paragraphs, each prefixed by the bullet glyph; exactly one
picture shape. -/
def roundTripClaim (doc : Document) : Prop :=
  doc.length = 2 ∧
  ((titleBoxOf (doc.getD 1 (.contentSlide []))).paragraphs.map DocParagraph.text
    = ["A"]) ∧
  (bulletBoxOf (doc.getD 1 (.contentSlide []))).paragraphs.length = 3 ∧
  (∀ q ∈ (bulletBoxOf (doc.getD 1 (.contentSlide []))).paragraphs,
    bulletGlyph.toList.isPrefixOf q.text.toList = true) ∧
  pictureCount (doc.getD 1 (.contentSlide [])) = 1

instance (doc : Document) : Decidable (roundTripClaim doc) := by
  unfold roundTripClaim; infer_instance

theorem genImagesLoop_ok (slides : List SlideDict) (svc : Nat → ImageCall)
    (h : ∀ s ∈ slides, s.wfForImages) (i : Nat) (acc : ImageDict) :
    genImagesLoop slides svc i acc = .ok (acc ++ expectedEntries slides svc i) := by
  induction slides generalizing i acc with
  | nil => simp [genImagesLoop, expectedEntries]
  | cons s rest ih =>
    have hs : s.wfForImages := h s (List.mem_cons_self s rest)
    obtain ⟨hp, ht⟩ := hs
    obtain ⟨p, hp⟩ := Option.isSome_iff_exists.mp hp
    obtain ⟨t, ht⟩ := Option.isSome_iff_exists.mp ht
    have hrest : ∀ s ∈ rest, s.wfForImages := fun x hx => h x (List.mem_cons_of_mem s hx)
    simp [genImagesLoop, hp, ht, expectedEntries, ih hrest]

theorem expectedEntries_keys (slides : List SlideDict) (svc : Nat → ImageCall)
    (i : Nat) :
    (expectedEntries slides svc i).map Prod.fst = List.range' i slides.length := by
  induction slides generalizing i with
  | nil => simp [expectedEntries]
  | cons s rest ih => simp [expectedEntries, List.range', ih]

theorem expectedEntries_lookup (slides : List SlideDict) (svc : Nat → ImageCall)
    (i j : Nat) (hj : j < slides.length) :
    dictLookup (expectedEntries slides svc i) (i + j) =
      some (slideImageResult (svc (i + j))) := by
  induction slides generalizing i j with
  | nil => simp at hj
  | cons s rest ih =>
    cases j with
    | zero => simp [expectedEntries, dictLookup]
    | succ j =>
      have hj' : j < rest.length := by simpa using hj
      have hne : ¬ (i = i + (j + 1)) := by omega
      have := ih (i + 1) j hj'
      simpa [expectedEntries, dictLookup, hne, Nat.add_assoc, Nat.add_comm,
        Nat.add_left_comm] using this

theorem expectedEntries_lookup_zero (slides : List SlideDict)
    (svc : Nat → ImageCall) (j : Nat) (hj : j < slides.length) :
    dictLookup (expectedEntries slides svc 0) j = some (slideImageResult (svc j)) := by
  simpa using expectedEntries_lookup slides svc 0 j hj

/-- C1: for an outline whose `slides` are N slide objects each carrying an
`image_prompt` (and a `slide_title`, read by the progress print), the map
returned by `generate_presentation_slide_images` has exactly the keys
0, …, N-1 — no other keys, no missing keys — regardless of which service
calls fail (`svc` is arbitrary). -/
theorem images_map_complete (outline : OutlineDict) (slides : List SlideDict)
    (svc : Nat → ImageCall) (hs : outline.slides = some slides)
    (hwf : ∀ s ∈ slides, s.wfForImages) :
    ∃ m : ImageDict, generate_presentation_slide_images outline svc = .ok m ∧
      m.map Prod.fst = List.range slides.length := by
  refine ⟨expectedEntries slides svc 0, ?_, ?_⟩
  · simp [generate_presentation_slide_images, hs,
      genImagesLoop_ok slides svc hwf 0 []]
  · rw [expectedEntries_keys, List.range_eq_range']

/-- Witness for C1 at a concrete two-slide outline with every call failing. -/
theorem images_map_complete_witness :
    ∃ m : ImageDict,
      generate_presentation_slide_images
        ⟨some "T", some [⟨some "A", some ["p"], some "q"⟩,
                         ⟨some "B", some ["r"], some "s"⟩]⟩
        (fun _ => .failure) = .ok m ∧
      m.map Prod.fst = List.range 2 :=
  images_map_complete _
    [⟨some "A", some ["p"], some "q"⟩, ⟨some "B", some ["r"], some "s"⟩]
    _ rfl (by decide)

/-- C2: any failure of a per-slide service call (or of the response scan,
folded into `ImageCall.failure`) is recorded as null for that index and no
error propagates: the function still returns `.ok`, and every index whose
call failed maps to `none`. -/
theorem per_slide_failure_absorbed (outline : OutlineDict)
    (slides : List SlideDict) (svc : Nat → ImageCall)
    (hs : outline.slides = some slides)
    (hwf : ∀ s ∈ slides, s.wfForImages) :
    ∃ m : ImageDict, generate_presentation_slide_images outline svc = .ok m ∧
      ∀ i, i < slides.length → svc i = .failure → dictLookup m i = some none := by
  refine ⟨expectedEntries slides svc 0, ?_, ?_⟩
  · simp [generate_presentation_slide_images, hs,
      genImagesLoop_ok slides svc hwf 0 []]
  · intro i hi hfail
    rw [expectedEntries_lookup_zero slides svc i hi, hfail]
    rfl

/-- Witness for C2: one slide, its service call failing, recorded as null. -/
theorem per_slide_failure_absorbed_witness :
    ∃ m : ImageDict,
      generate_presentation_slide_images
        ⟨some "T", some [⟨some "A", some ["p"], some "q"⟩]⟩
        (fun _ => .failure) = .ok m ∧
      ∀ i, i < 1 → (fun _ : Nat => ImageCall.failure) i = .failure →
        dictLookup m i = some none := by
  have h := per_slide_failure_absorbed
    ⟨some "T", some [⟨some "A", some ["p"], some "q"⟩]⟩
    [⟨some "A", some ["p"], some "q"⟩] (fun _ => .failure) rfl (by decide)
  simpa using h

theorem scanParts_eq_find (parts : List Part) :
    scanParts parts =
      (parts.find? (fun p => p.inline_data.isSome)).bind
        (fun p => p.inline_data.map InlineData.data) := by
  induction parts with
  | nil => rfl
  | cons p rest ih =>
    cases h : p.inline_data with
    | none => simp [scanParts, List.find?, h, ih]
    | some d => simp [scanParts, List.find?, h]

/-- C7: for a slide whose service call succeeds with content parts, the
recorded value is the `data` of the first part (in part order) carrying
inline binary data, and null when no part carries inline data. -/
theorem first_inline_data_recorded (outline : OutlineDict)
    (slides : List SlideDict) (svc : Nat → ImageCall)
    (hs : outline.slides = some slides)
    (hwf : ∀ s ∈ slides, s.wfForImages)
    (i : Nat) (hi : i < slides.length) (parts : List Part)
    (hcall : svc i = .success parts) :
    ∃ m : ImageDict, generate_presentation_slide_images outline svc = .ok m ∧
      dictLookup m i =
        some ((parts.find? (fun p => p.inline_data.isSome)).bind
          (fun p => p.inline_data.map InlineData.data)) ∧
      ((∀ p ∈ parts, p.inline_data = none) → dictLookup m i = some none) := by
  refine ⟨expectedEntries slides svc 0, ?_, ?_, ?_⟩
  · simp [generate_presentation_slide_images, hs,
      genImagesLoop_ok slides svc hwf 0 []]
  · rw [expectedEntries_lookup_zero slides svc i hi, hcall]
    simp [slideImageResult, scanParts_eq_find]
  · intro hnone
    rw [expectedEntries_lookup_zero slides svc i hi, hcall]
    have : parts.find? (fun p => p.inline_data.isSome) = none := by
      rw [List.find?_eq_none]
      intro p hp
      simp [hnone p hp]
    simp [slideImageResult, scanParts_eq_find, this]

/-- Witness for C7: one slide, a response whose parts are a text part then
an inline-data part; the recorded value is the inline part's data. -/
theorem first_inline_data_recorded_witness :
    ∃ m : ImageDict,
      generate_presentation_slide_images
        ⟨some "T", some [⟨some "A", some ["p"], some "q"⟩]⟩
        (fun _ => .success [⟨none⟩, ⟨some ⟨[7, 8]⟩⟩]) = .ok m ∧
      dictLookup m 0 =
        some (([(⟨none⟩ : Part), ⟨some ⟨[7, 8]⟩⟩].find?
          (fun p => p.inline_data.isSome)).bind
          (fun p => p.inline_data.map InlineData.data)) ∧
      ((∀ p ∈ [(⟨none⟩ : Part), ⟨some ⟨[7, 8]⟩⟩], p.inline_data = none) →
        dictLookup m 0 = some none) :=
  first_inline_data_recorded _ _ _ rfl (by decide) 0 (by decide) _ rfl

/-- C9: the accesses `slide['image_prompt']` and `slide['slide_title']`
happen before the protected `try` region, so an outline whose slide object
lacks either field makes `generate_presentation_slide_images` raise a
missing-field error to its caller instead of recording null and
continuing — whatever the service would have answered. -/
theorem missing_field_raises :
    (∀ svc : Nat → ImageCall,
      generate_presentation_slide_images
        ⟨some "T", some [⟨some "A", some ["p"], none⟩]⟩ svc =
          .error "KeyError: image_prompt") ∧
    (∀ svc : Nat → ImageCall,
      generate_presentation_slide_images
        ⟨some "T", some [⟨none, some ["p"], some "q"⟩]⟩ svc =
          .error "KeyError: slide_title") :=
  ⟨fun _ => rfl, fun _ => rfl⟩

theorem dropWhile_append_all {α : Type} (p : α → Bool) (xs ys : List α)
    (h : ∀ x ∈ xs, p x = true) :
    List.dropWhile p (xs ++ ys) = List.dropWhile p ys := by
  induction xs with
  | nil => rfl
  | cons a l ih =>
    have ha : p a = true := h a (List.mem_cons_self a l)
    simp only [List.cons_append, List.dropWhile_cons, ha, if_true]
    exact ih (fun x hx => h x (List.mem_cons_of_mem a hx))

theorem dropWhile_cons_neg {α : Type} (p : α → Bool) (a : α) (l : List α)
    (h : p a = false) : List.dropWhile p (a :: l) = a :: l := by
  simp [List.dropWhile_cons, h]

/-- Action of `pyStrip` on a string of the form `pre ++ a :: mid ++ b :: suf`, where
every character of `pre` and `suf` is stripped and neither `a` nor `b`
is, keeps exactly `a :: mid ++ [b]`. -/
theorem pyStrip_sandwich (p : Char → Bool) (pre mid suf : List Char)
    (a b : Char)
    (hpre : ∀ x ∈ pre, p x = true) (hsuf : ∀ x ∈ suf, p x = true)
    (ha : p a = false) (hb : p b = false) :
    pyStrip p (pre ++ a :: (mid ++ b :: suf)) = a :: (mid ++ [b]) := by
  unfold pyStrip
  rw [dropWhile_append_all p pre _ hpre, dropWhile_cons_neg p a _ ha]
  have hrev : (a :: (mid ++ b :: suf)).reverse
      = suf.reverse ++ b :: (mid.reverse ++ [a]) := by
    simp
  rw [hrev, dropWhile_append_all p suf.reverse _
    (fun x hx => hsuf x (List.mem_reverse.mp hx)),
    dropWhile_cons_neg p b _ hb]
  simp

theorem strip_backticks_tagged (J : List Char) :
    stripCharSet [backtick] (fencedTagged J)
      = 'j' :: 's' :: 'o' :: 'n' :: '\n' :: (J ++ ['\n']) := by
  have h := pyStrip_sandwich (fun c => [backtick].contains c)
    [backtick, backtick, backtick] (['s', 'o', 'n', '\n'] ++ J)
    [backtick, backtick, backtick] 'j' '\n'
    (by decide) (by decide) (by decide) (by decide)
  have e : [backtick, backtick, backtick] ++ 'j' ::
      ((['s', 'o', 'n', '\n'] ++ J) ++ '\n' :: [backtick, backtick, backtick])
      = fencedTagged J := by
    simp [fencedTagged]
  rw [e] at h
  unfold stripCharSet
  rw [h]
  simp

theorem strip_backticks_plain (J : List Char) :
    stripCharSet [backtick] (fencedPlain J) = '\n' :: (J ++ ['\n']) := by
  have h := pyStrip_sandwich (fun c => [backtick].contains c)
    [backtick, backtick, backtick] J [backtick, backtick, backtick] '\n' '\n'
    (by decide) (by decide) (by decide) (by decide)
  have e : [backtick, backtick, backtick] ++ '\n' ::
      (J ++ '\n' :: [backtick, backtick, backtick]) = fencedPlain J := by
    simp [fencedPlain]
  rw [e] at h
  unfold stripCharSet
  rw [h]

theorem strip_langtag_tagged (J : List Char) :
    stripCharSet ['j', 's', 'o', 'n']
      ('j' :: 's' :: 'o' :: 'n' :: '\n' :: (J ++ ['\n']))
      = '\n' :: (J ++ ['\n']) := by
  have h := pyStrip_sandwich (fun c => ['j', 's', 'o', 'n'].contains c)
    ['j', 's', 'o', 'n'] J [] '\n' '\n'
    (by decide) (by decide) (by decide) (by decide)
  have e : ['j', 's', 'o', 'n'] ++ '\n' :: (J ++ '\n' :: ([] : List Char))
      = 'j' :: 's' :: 'o' :: 'n' :: '\n' :: (J ++ ['\n']) := by
    simp
  rw [e] at h
  unfold stripCharSet
  rw [h]

theorem strip_langtag_bare (J : List Char) :
    stripCharSet ['j', 's', 'o', 'n'] ('\n' :: (J ++ ['\n']))
      = '\n' :: (J ++ ['\n']) := by
  have h := pyStrip_sandwich (fun c => ['j', 's', 'o', 'n'].contains c)
    [] J [] '\n' '\n'
    (by decide) (by decide) (by decide) (by decide)
  have e : ([] : List Char) ++ '\n' :: (J ++ '\n' :: ([] : List Char))
      = '\n' :: (J ++ ['\n']) := by
    simp
  rw [e] at h
  unfold stripCharSet
  rw [h]

theorem strip_whitespace_object (jmid : List Char) :
    pyStrip pyIsSpace ('\n' :: (('{' :: (jmid ++ ['}'])) ++ ['\n']))
      = '{' :: (jmid ++ ['}']) := by
  have h := pyStrip_sandwich pyIsSpace ['\n'] jmid ['\n'] '{' '}'
    (by decide) (by decide) (by decide) (by decide)
  have e : ['\n'] ++ '{' :: (jmid ++ '}' :: ['\n'])
      = '\n' :: (('{' :: (jmid ++ ['}'])) ++ ['\n']) := by
    simp
  rw [e] at h
  exact h

/-- C3: any JSON object text `{…}` wrapped in a triple-backtick code
fence — with or without the `json` language tag — is restored exactly by
the cleaning step `strip('` + `').strip('json').strip()`, so parsing the
cleaned text yields the same outline as parsing the unwrapped JSON. -/
theorem code_fence_stripping (jmid : List Char) :
    normalize_json_text (fencedTagged ('{' :: (jmid ++ ['}'])))
      = '{' :: (jmid ++ ['}']) ∧
    normalize_json_text (fencedPlain ('{' :: (jmid ++ ['}'])))
      = '{' :: (jmid ++ ['}']) ∧
    ∀ jsonParse : List Char → Option OutlineDict,
      jsonParse (normalize_json_text (fencedTagged ('{' :: (jmid ++ ['}']))))
        = jsonParse ('{' :: (jmid ++ ['}'])) := by
  have htag : normalize_json_text (fencedTagged ('{' :: (jmid ++ ['}'])))
      = '{' :: (jmid ++ ['}']) := by
    unfold normalize_json_text
    rw [strip_backticks_tagged, strip_langtag_tagged, strip_whitespace_object]
  have hplain : normalize_json_text (fencedPlain ('{' :: (jmid ++ ['}'])))
      = '{' :: (jmid ++ ['}']) := by
    unfold normalize_json_text
    rw [strip_backticks_plain, strip_langtag_bare, strip_whitespace_object]
  exact ⟨htag, hplain, fun jsonParse => by rw [htag]⟩

/-- C4: when the outline stage fails — the service call raises, or the
parse of the cleaned text fails — `generate_presentation_slide_text`
returns `None`, and the main pipeline then halts: the image stage and the
assembly stage never run and nothing is written to the file store. -/
theorem outline_failure_halts_pipeline (call : TextCall)
    (jsonParse : List Char → Option OutlineDict) (svc : Nat → ImageCall)
    (fs : List (String × Document))
    (h : call = .failure ∨
      ∀ t, call = .success t → jsonParse (normalize_json_text t) = none) :
    generate_presentation_slide_text call jsonParse = none ∧
    run_main call jsonParse svc fs = (none, none, fs) := by
  have hg : generate_presentation_slide_text call jsonParse = none := by
    cases call with
    | failure => rfl
    | success t =>
      rcases h with h | h
      · exact absurd h (by simp)
      · simp [generate_presentation_slide_text, h t rfl]
  exact ⟨hg, by simp [run_main, hg]⟩

/-- Witness for C4: a failing service call halts everything. -/
theorem outline_failure_halts_pipeline_witness :
    generate_presentation_slide_text .failure (fun _ => none) = none ∧
    run_main .failure (fun _ => none) (fun _ => .failure) [] =
      (none, none, []) :=
  outline_failure_halts_pipeline .failure (fun _ => none) (fun _ => .failure)
    [] (Or.inl rfl)

/-- C5: for the five-slide outline with an image map where index 2 is
null and all other indices carry bytes, the assembled document has
exactly 6 slides (1 title + 5 content); the content slide for outline
index 2 (document index 3) has no picture shape, all other content
slides have one. -/
theorem five_slide_null_image_scenario (b0 b1 b3 b4 : List Nat) :
    ∃ doc : Document,
      create_presentation_file outline5 (images5 b0 b1 b3 b4) = .ok doc ∧
      doc.length = 6 ∧
      isTitleSlide (doc.getD 0 (.contentSlide [])) = true ∧
      isContentSlide (doc.getD 1 (.contentSlide [])) = true ∧
      isContentSlide (doc.getD 2 (.contentSlide [])) = true ∧
      isContentSlide (doc.getD 3 (.contentSlide [])) = true ∧
      isContentSlide (doc.getD 4 (.contentSlide [])) = true ∧
      isContentSlide (doc.getD 5 (.contentSlide [])) = true ∧
      hasPicture (doc.getD 1 (.contentSlide [])) = true ∧
      hasPicture (doc.getD 2 (.contentSlide [])) = true ∧
      hasPicture (doc.getD 3 (.contentSlide [])) = false ∧
      hasPicture (doc.getD 4 (.contentSlide [])) = true ∧
      hasPicture (doc.getD 5 (.contentSlide [])) = true :=
  ⟨_, rfl, rfl, rfl, rfl, rfl, rfl, rfl, rfl, rfl, rfl, rfl, rfl, rfl⟩

/-- C6 counterexample: on the round-trip input the assembled document
does NOT satisfy the claim as stated — a fresh python-pptx text frame
already holds one empty paragraph, so the bullet text box has 4
paragraphs, not 3, and its first paragraph carries no bullet glyph. -/
theorem round_trip_claim_fails :
    ∃ doc : Document,
      create_presentation_file outlineX (imagesX pngBytes) = .ok doc ∧
      ¬ roundTripClaim doc := by
  refine ⟨_, rfl, ?_⟩
  decide

/-- C6 as amended: the document has 2 slides; the content slide's title
text box reads "A"; the bullet text box holds the default empty paragraph
followed by exactly 3 paragraphs each prefixed by the bullet glyph (4 in
total); and there is exactly one picture shape. -/
theorem round_trip_scenario_amended (b : List Nat) :
    ∃ doc : Document,
      create_presentation_file outlineX (imagesX b) = .ok doc ∧
      doc.length = 2 ∧
      ((titleBoxOf (doc.getD 1 (.contentSlide []))).paragraphs.map
        DocParagraph.text = ["A"]) ∧
      (bulletBoxOf (doc.getD 1 (.contentSlide []))).paragraphs
        = defaultParagraph :: ["p1", "p2", "p3"].map bulletParagraph ∧
      (bulletBoxOf (doc.getD 1 (.contentSlide []))).paragraphs.length = 4 ∧
      (∀ q ∈ ["p1", "p2", "p3"].map bulletParagraph,
        bulletGlyph.toList.isPrefixOf q.text.toList = true) ∧
      pictureCount (doc.getD 1 (.contentSlide [])) = 1 :=
  ⟨_, rfl, rfl, rfl, rfl, rfl, by decide, rfl⟩

/-- C8: `create_presentation_file` is deterministic — two runs on
identical outline and image map yield structurally equal documents. -/
theorem assembly_deterministic (o : OutlineDict) (im : ImageDict)
    (d₁ d₂ : Document)
    (h₁ : create_presentation_file o im = .ok d₁)
    (h₂ : create_presentation_file o im = .ok d₂) : d₁ = d₂ := by
  rw [h₁] at h₂
  exact Except.ok.inj h₂

/-- Witness for C8 on the concrete round-trip fixture. -/
theorem assembly_deterministic_witness :
    ∃ d₁ d₂ : Document,
      create_presentation_file outlineX (imagesX pngBytes) = .ok d₁ ∧
      create_presentation_file outlineX (imagesX pngBytes) = .ok d₂ ∧
      d₁ = d₂ := by
  obtain ⟨d, hd⟩ : ∃ d, create_presentation_file outlineX (imagesX pngBytes)
      = .ok d := ⟨_, rfl⟩
  exact ⟨d, d, hd, hd,
    assembly_deterministic outlineX (imagesX pngBytes) d d hd hd⟩

/-- C10: `create_presentation_file` never mutates its inputs — after the
call, succeed or raise, the outline and the image map in the caller's
state are unchanged (only the file system may have gained an entry). -/
theorem assembly_preserves_inputs (st : PipeState) (path : String) :
    (create_presentation_file_run st path).2.outline = st.outline ∧
    (create_presentation_file_run st path).2.images = st.images := by
  unfold create_presentation_file_run
  cases create_presentation_file st.outline st.images <;> simp

end App
